import Mathlib

/-!
# Verification of the msimpact stream dispatcher

Shallow embedding of `src/main.go` (the msimpact dispatcher) together with the
collaborator `impact` package, the latter modelled from the design document
where its source is not available.  Timestamps are integers (nanoseconds),
physical amplitudes are rationals.
-/

namespace Msimpact

/-- Errors of the core, following the error kinds of the design document. -/
inductive ImpactError where
  | configError
  | invalidLevel
  | sampleError
  | calibrationError
  deriving DecidableEq, Repr

/-- Modelled from the spec: `StreamConfig` — per-channel calibration
parameters (bias/offset removal then a scale factor), the ordered threshold
table of `(amplitude breakpoint, intensity level)` pairs, and the optional
per-channel overrides of probation window and noise-sensitivity level that
the configuration schema admits. -/
structure StreamConfig where
  offset : ℚ
  scale : ℚ
  thresholds : List (ℚ × Int)
  probationOverride : Option Int
  sensitivityOverride : Option Int
  deriving DecidableEq, Repr

/-- The threshold table is non-decreasing in both the breakpoint amplitude
and the mapped level. -/
def nonDecreasing : List (ℚ × Int) → Bool
  | [] => true
  | [_] => true
  | a :: b :: rest => (decide (a.1 ≤ b.1) && decide (a.2 ≤ b.2)) && nonDecreasing (b :: rest)

/-- Does the configuration contain a duplicate source key? -/
def dupKeys : List (String × StreamConfig) → Bool
  | [] => false
  | (k, _) :: rest => rest.any (fun p => p.1 == k) || dupKeys rest

/-- Modelled from the spec: `impact.LoadStreams` / `LoadConfig` — loads the
mapping from source key to `StreamConfig`.  `none` stands for malformed
input (a parse failure).  Fails with `ConfigError` on malformed input, on a
threshold table violating the non-decreasing invariant, or on a duplicate
source key. -/
def LoadStreams : Option (List (String × StreamConfig)) → Except ImpactError (List (String × StreamConfig))
  | none => .error .configError
  | some entries =>
    if dupKeys entries then .error .configError
    else if entries.all (fun p => nonDecreasing p.2.thresholds) then .ok entries
    else .error .configError

/-- Modelled from the spec: `StreamState` — the per-channel mutable state:
last emitted intensity level (`none` is the unset sentinel), the probation
deadline fixed at `Init`, the rolling flap-window state (times of recent
level changes), the noise-suppression cooldown deadline, and the effective
sensitivity level. -/
structure StreamState where
  lastEmitted : Option Int
  deadline : Int
  changes : List Int
  noisyUntil : Int
  sensitivity : Int
  deriving DecidableEq, Repr

/-- Modelled from the spec: flap tolerance — the configured number of level
changes tolerated inside the rolling window (a configurable default; the
exact value is an open question of the design). -/
def flapTolerance : Nat := 4

/-- Modelled from the spec: the rolling flap window, in nanoseconds (a
configurable default). -/
def flapWindow : Int := 60000000000

/-- Modelled from the spec: the `Noisy` cooldown duration, in nanoseconds (a
configurable default). -/
def flapCooldown : Int := 600000000000

/-- Modelled from the spec: `StreamState.Init(sourceKey, probationWindow,
sensitivityLevel)` — validates the sensitivity level against the number of
configured threshold rows (failing with `InvalidLevelError` out of range),
sets the probation deadline to the current time plus the probation window,
and leaves `lastEmitted` at the unset sentinel. -/
def Init (cfg : StreamConfig) (_sourceKey : String) (now probationWindow sensitivityLevel : Int) :
    Except ImpactError StreamState :=
  if sensitivityLevel < 0 ∨ (cfg.thresholds.length : Int) < sensitivityLevel then
    .error .invalidLevel
  else
    .ok { lastEmitted := none
          deadline := now + probationWindow
          changes := []
          noisyUntil := now
          sensitivity := sensitivityLevel }

/-- Calibration from the spec: bias/offset removal, then a scale factor. -/
def calibrate (cfg : StreamConfig) (x : Int) : ℚ :=
  ((x : ℚ) - cfg.offset) * cfg.scale

/-- Highest threshold-table row whose breakpoint is at most the peak
amplitude; level 0 below the first breakpoint. -/
def lookupLevel (rows : List (ℚ × Int)) (peak : ℚ) : Int :=
  rows.foldl (fun acc r => if r.1 ≤ peak then r.2 else acc) 0

/-- Modelled from the spec: `IntensityEstimator.Estimate` — fails with
`SampleError` on an empty sample sequence, otherwise calibrates the raw
counts, takes the peak absolute amplitude and maps it through the threshold
table. -/
def Estimate (cfg : StreamConfig) (samples : List Int) : Except ImpactError Int :=
  if samples.isEmpty then .error .sampleError
  else
    let peak := (samples.map (fun x => |calibrate cfg x|)).foldl max 0
    .ok (lookupLevel cfg.thresholds peak)

/-- The emitted message; field names follow the wire shape of the design
document, `MMI` being the computed intensity level as used by `main.go`. -/
structure Message where
  Source : String
  SrcName : String
  Time : Int
  MMI : Int
  deriving DecidableEq, Repr

/-- Modelled from the spec: `ProcessSamples` — runs the estimator over the
block's samples and, on success, builds the `Message` carrying the
normalized channel label, the raw source key, the block start time and the
computed level; on an estimator error the channel state is returned
unchanged through the error path (the block never touches it). -/
def ProcessSamples (cfg : StreamConfig) (st : StreamState) (source srcname : String)
    (starttime : Int) (samples : List Int) : Except ImpactError (StreamState × Message) :=
  match Estimate cfg samples with
  | .error e => .error e
  | .ok lvl => .ok (st, { Source := source, SrcName := srcname, Time := starttime, MMI := lvl })

/-- Modelled from the spec: `Flush` — the FlushGate state machine.  While
now is before the probation deadline the channel is `Initializing` and
always suppresses; while now is before the noise cooldown deadline the
channel is `Noisy` and suppresses; an estimate equal to `lastEmitted`
suppresses (no heartbeats); a change that exceeds the flap tolerance inside
the rolling window enters `Noisy` and is itself suppressed; otherwise the
change is emitted and `lastEmitted` updated. -/
def Flush (now : Int) (st : StreamState) (lvl : Int) : StreamState × Bool :=
  if now < st.deadline then (st, false)
  else if now < st.noisyUntil then (st, false)
  else if st.lastEmitted = some lvl then (st, false)
  else
    let recent := st.changes.filter (fun t => now - t ≤ flapWindow)
    if flapTolerance < recent.length then
      ({ st with noisyUntil := now + flapCooldown, changes := recent }, false)
    else
      ({ st with lastEmitted := some lvl, changes := now :: recent }, true)

/-! ## The dispatcher (`src/main.go`) -/

/-- `strings.TrimRight(s, "\u0000")`: strip trailing NUL characters. -/
def trimTrailingNuls (s : String) : String :=
  ⟨(s.data.reverse.dropWhile (fun c => c = Char.ofNat 0)).reverse⟩

/-- `strings.NewReplacer("_", ".")`: replace every underscore by a dot. -/
def replaceUnderscores (s : String) : String :=
  ⟨s.data.map (fun c => if c = '_' then '.' else c)⟩

/-- A decoded miniseed block as the external decoder hands it to the
dispatcher: network and station codes, the decoder's `srcname`, the block
start time, the injected clock reading at processing time, and the result
of `DataSamples` (which may fail). -/
structure Block where
  network : String
  station : String
  srcname : String
  starttime : Int
  now : Int
  samples : Except String (List Int)

/-- `time.Now().Truncate(time.Second)` on a nanosecond timestamp. -/
def truncSec (t : Int) : Int := t / 1000000000 * 1000000000

/-- A log line written by the dispatcher loop. -/
inductive LogEntry where
  | unknownStream (srcname : String)
  | sampleProblem (e : String)
  | processingProblem (e : ImpactError)
  deriving DecidableEq, Repr

/-- The dispatcher's mutable processing state: the per-channel registry
(config and state per source key) and the remembered unknown keys. -/
structure Dispatch where
  streams : List (String × StreamConfig × StreamState)
  missing : List String
  deriving Repr

/-- Store an updated channel state back into the registry. -/
def updateStream (l : List (String × StreamConfig × StreamState)) (k : String)
    (st : StreamState) : List (String × StreamConfig × StreamState) :=
  l.map (fun p => if p.1 == k then (p.1, p.2.1, st) else p)

/-- One iteration of the block loop of `main.go` (lines 142–181): build the
normalized source label, skip keys already remembered as missing, look up
the stream, recover samples, process them into a message, and gate the
message through `Flush`; under the replay flag the emitted message's time is
replaced by "now" truncated to whole seconds. -/
def processBlock (replay : Bool) (d : Dispatch) (b : Block) :
    Dispatch × List LogEntry × Option Message :=
  let source := trimTrailingNuls (b.network ++ "." ++ b.station)
  if d.missing.contains b.srcname then (d, [], none)
  else
    match d.streams.lookup b.srcname with
    | none =>
        ({ d with missing := b.srcname :: d.missing }, [.unknownStream b.srcname], none)
    | some (cfg, st) =>
      match b.samples with
      | .error e => (d, [.sampleProblem e], none)
      | .ok samples =>
        match ProcessSamples cfg st (replaceUnderscores source) b.srcname b.starttime samples with
        | .error e => (d, [.processingProblem e], none)
        | .ok (st1, message) =>
          let fr := Flush b.now st1 message.MMI
          let d' := { d with streams := updateStream d.streams b.srcname fr.1 }
          if fr.2 then
            (d', [], some (if replay then { message with Time := truncSec b.now } else message))
          else
            (d', [], none)

/-- The whole block loop: fold `processBlock` over the decoded blocks,
collecting log lines and the messages handed to the result channel. -/
def runBlocks (replay : Bool) (d : Dispatch) : List Block → Dispatch × List LogEntry × List Message
  | [] => (d, [], [])
  | b :: bs =>
    let r := processBlock replay d b
    let rest := runBlocks replay r.1 bs
    (rest.1, r.2.1 ++ rest.2.1, r.2.2.toList ++ rest.2.2)

/-- `json.Marshal` of a `Message`, with the wire field names of the design
document. -/
def marshal (m : Message) : String :=
  "\x7b\"source\":\"" ++ m.Source ++ "\",\"srcName\":\"" ++ m.SrcName ++
    "\",\"time\":" ++ toString m.Time ++ ",\"level\":" ++ toString m.MMI ++ "\x7d"

/-- What the output goroutine produced: the marshalled strings, the lines
printed under the verbose flag, and the send attempts against the queue
together with whether every attempted send succeeded (a failed send panics,
stopping the goroutine). -/
structure SinkResult where
  marshalled : List String
  printed : List String
  sent : List String
  deliveredOk : Bool
  deriving DecidableEq, Repr

/-- The output goroutine of `main.go` (lines 100–117): each message is
marshalled, printed when verbose, and — unless dry-run — sent to the queue;
a send failure panics, so no later message is handled. -/
def handleMessages (verbose dryrun : Bool) (deliver : String → Bool) :
    List Message → SinkResult
  | [] => ⟨[], [], [], true⟩
  | m :: ms =>
    let s := marshal m
    let pr := if verbose then [s] else []
    if dryrun then
      let rest := handleMessages verbose dryrun deliver ms
      ⟨s :: rest.marshalled, pr ++ rest.printed, rest.sent, rest.deliveredOk⟩
    else if deliver s then
      let rest := handleMessages verbose dryrun deliver ms
      ⟨s :: rest.marshalled, pr ++ rest.printed, s :: rest.sent, rest.deliveredOk⟩
    else
      ⟨[s], pr, [s], false⟩

/-- Initial stream setup of `main.go` (lines 84–90): `Init` each configured
channel once with the run-wide probation window and sensitivity level; a
failing `Init` is fatal. -/
def initStreams (t0 probation sensitivity : Int) :
    List (String × StreamConfig) → Except ImpactError (List (String × StreamConfig × StreamState))
  | [] => .ok []
  | (k, cfg) :: rest =>
    match Init cfg k t0 probation sensitivity with
    | .error e => .error e
    | .ok st =>
      match initStreams t0 probation sensitivity rest with
      | .error e => .error e
      | .ok tl => .ok ((k, cfg, st) :: tl)

/-- Observable outcome of a whole run. -/
structure RunResult where
  queueOpened : Bool
  logs : List LogEntry
  emitted : List Message
  marshalled : List String
  printed : List String
  sent : List String
  streams : List (String × StreamConfig × StreamState)
  missing : List String

/-- The whole of `main.go` after flag parsing: open the queue connection
unless dry-run, load and validate the stream configuration (fatal on
error), `Init` every configured channel (fatal on error), process every
decoded block, and hand every emitted message to the output goroutine. -/
def run (verbose dryrun replay : Bool) (probation sensitivity t0 : Int)
    (raw : Option (List (String × StreamConfig))) (deliver : String → Bool)
    (blocks : List Block) : Except ImpactError RunResult :=
  match LoadStreams raw with
  | .error e => .error e
  | .ok cfgs =>
    match initStreams t0 probation sensitivity cfgs with
    | .error e => .error e
    | .ok streams0 =>
      let r := runBlocks replay ⟨streams0, []⟩ blocks
      let sink := handleMessages verbose dryrun deliver r.2.2
      .ok { queueOpened := !dryrun
            logs := r.2.1
            emitted := r.2.2
            marshalled := sink.marshalled
            printed := sink.printed
            sent := sink.sent
            streams := r.1.streams
            missing := r.1.missing }

/-! ## Helper lemmas -/

/-- `Flush` never emits an unchanged level: every branch of the gate
suppresses when the estimate equals `lastEmitted`. -/
theorem flush_unchanged_false (now : Int) (st : StreamState) (lvl : Int)
    (h : st.lastEmitted = some lvl) : (Flush now st lvl).2 = false := by
  unfold Flush
  split_ifs <;> simp_all

/-- A positive `Flush` decision records the emitted level in
`lastEmitted`. -/
theorem flush_true_lastEmitted (now : Int) (st : StreamState) (lvl : Int) :
    (Flush now st lvl).2 = true → (Flush now st lvl).1.lastEmitted = some lvl := by
  unfold Flush
  split_ifs <;> try simp_all
  split <;> simp

/-- Fixture: a three-row threshold table with neutral calibration. -/
def cfgW : StreamConfig :=
  { offset := 0, scale := 1, thresholds := [(0, 0), (100, 1), (500, 2)]
    probationOverride := none, sensitivityOverride := none }

/-- Fixture: an `Armed` channel state with no emission yet. -/
def stW : StreamState :=
  { lastEmitted := none, deadline := 0, changes := [], noisyUntil := 0, sensitivity := 0 }

/-- Fixture: a one-channel registry with no remembered unknown keys. -/
def dW : Dispatch := ⟨[("NZ.WEL.10.HNZ", cfgW, stW)], []⟩

/-- Fixture: a decoded block for the configured channel. -/
def bW : Block :=
  { network := "NZ", station := "WEL\u0000", srcname := "NZ.WEL.10.HNZ"
    starttime := 5000000000, now := 7000000000, samples := .ok [600] }

/-! ## C1 -/

/-- C1: for a block that reaches sample processing successfully, the
dispatcher hands a `Message` to the delivery sink exactly when the
channel's `Flush` decision on the block's computed intensity level returns
true, and a block whose level equals the last emitted one produces no
outgoing message. -/
theorem c1_emit_iff_flush (replay : Bool) (d : Dispatch) (b : Block)
    (cfg : StreamConfig) (st st1 : StreamState) (msg : Message) (samples : List Int)
    (hm : d.missing.contains b.srcname = false)
    (hl : d.streams.lookup b.srcname = some (cfg, st))
    (hs : b.samples = .ok samples)
    (hp : ProcessSamples cfg st
            (replaceUnderscores (trimTrailingNuls (b.network ++ "." ++ b.station)))
            b.srcname b.starttime samples = .ok (st1, msg)) :
    ((processBlock replay d b).2.2.isSome = (Flush b.now st1 msg.MMI).2) ∧
      (st1.lastEmitted = some msg.MMI → (processBlock replay d b).2.2 = none) := by
  constructor
  · unfold processBlock
    simp only [hm, hl, hs, hp, Bool.false_eq_true, if_false]
    split
    · simp_all
    · simp_all
  · intro hlast
    unfold processBlock
    simp only [hm, hl, hs, hp, Bool.false_eq_true, if_false]
    split
    · next hfr => rw [flush_unchanged_false b.now st1 msg.MMI hlast] at hfr; exact absurd hfr (by simp)
    · rfl

/-- Fixture: the message the fixture block produces. -/
def msgW : Message :=
  { Source := "NZ.WEL", SrcName := "NZ.WEL.10.HNZ", Time := 5000000000, MMI := 2 }

/-- C1 witness: a concrete block for the fixture channel whose estimate is
level 2; the message is emitted and `Flush` returned true. -/
theorem c1_emit_iff_flush_witness :
    ((processBlock false dW bW).2.2.isSome = (Flush bW.now stW msgW.MMI).2) ∧
      (stW.lastEmitted = some msgW.MMI → (processBlock false dW bW).2.2 = none) :=
  c1_emit_iff_flush false dW bW cfgW stW stW msgW [600] (by decide) (by decide) rfl
    (by simp [ProcessSamples, Estimate, lookupLevel, calibrate, cfgW, stW, bW, msgW,
              trimTrailingNuls, replaceUnderscores]
        norm_num)

/-! ## C2 -/

/-- Complete case analysis of one dispatcher iteration: a block is dropped
for a remembered-missing key, logged-and-remembered for a fresh unknown
key, logged-and-skipped on a sample or processing error, or gated through
`Flush`. -/
theorem processBlock_cases (replay : Bool) (d : Dispatch) (b : Block) :
    (d.missing.contains b.srcname = true ∧ processBlock replay d b = (d, [], none)) ∨
    (d.missing.contains b.srcname = false ∧ d.streams.lookup b.srcname = none ∧
      processBlock replay d b =
        ({ d with missing := b.srcname :: d.missing }, [.unknownStream b.srcname], none)) ∨
    (∃ cfg st e, d.missing.contains b.srcname = false ∧
      d.streams.lookup b.srcname = some (cfg, st) ∧ b.samples = .error e ∧
      processBlock replay d b = (d, [.sampleProblem e], none)) ∨
    (∃ cfg st samples e, d.missing.contains b.srcname = false ∧
      d.streams.lookup b.srcname = some (cfg, st) ∧ b.samples = .ok samples ∧
      ProcessSamples cfg st (replaceUnderscores (trimTrailingNuls (b.network ++ "." ++ b.station)))
        b.srcname b.starttime samples = .error e ∧
      processBlock replay d b = (d, [.processingProblem e], none)) ∨
    (∃ cfg st samples st1 msg, d.missing.contains b.srcname = false ∧
      d.streams.lookup b.srcname = some (cfg, st) ∧ b.samples = .ok samples ∧
      ProcessSamples cfg st (replaceUnderscores (trimTrailingNuls (b.network ++ "." ++ b.station)))
        b.srcname b.starttime samples = .ok (st1, msg) ∧
      processBlock replay d b =
        ({ d with streams := updateStream d.streams b.srcname (Flush b.now st1 msg.MMI).1 }, [],
          if (Flush b.now st1 msg.MMI).2 then
            some (if replay then { msg with Time := truncSec b.now } else msg)
          else none)) := by
  by_cases h0 : d.missing.contains b.srcname = true
  · exact Or.inl ⟨h0, by unfold processBlock; rw [if_pos h0]⟩
  · rw [Bool.not_eq_true] at h0
    have hif : processBlock replay d b =
        (match d.streams.lookup b.srcname with
          | none =>
              ({ d with missing := b.srcname :: d.missing }, [.unknownStream b.srcname], none)
          | some (cfg, st) =>
            match b.samples with
            | .error e => (d, [.sampleProblem e], none)
            | .ok samples =>
              match ProcessSamples cfg st
                  (replaceUnderscores (trimTrailingNuls (b.network ++ "." ++ b.station)))
                  b.srcname b.starttime samples with
              | .error e => (d, [.processingProblem e], none)
              | .ok (st1, message) =>
                let fr := Flush b.now st1 message.MMI
                let d' := { d with streams := updateStream d.streams b.srcname fr.1 }
                if fr.2 then
                  (d', [], some (if replay then { message with Time := truncSec b.now } else message))
                else (d', [], none)) := by
      unfold processBlock
      rw [if_neg (by rw [h0]; simp)]
    rw [hif]
    cases hl : d.streams.lookup b.srcname with
    | none => exact Or.inr (Or.inl ⟨h0, rfl, rfl⟩)
    | some cs =>
      obtain ⟨cfg, st⟩ := cs
      cases hsmp : b.samples with
      | error e => exact Or.inr (Or.inr (Or.inl ⟨cfg, st, e, h0, rfl, rfl, rfl⟩))
      | ok samples =>
        dsimp only
        cases hps : ProcessSamples cfg st
            (replaceUnderscores (trimTrailingNuls (b.network ++ "." ++ b.station)))
            b.srcname b.starttime samples with
        | error e =>
          exact Or.inr (Or.inr (Or.inr (Or.inl ⟨cfg, st, samples, e, h0, rfl, rfl, hps, rfl⟩)))
        | ok pr =>
          obtain ⟨st1, msg⟩ := pr
          refine Or.inr (Or.inr (Or.inr (Or.inr ⟨cfg, st, samples, st1, msg, h0, rfl, rfl, hps, ?_⟩)))
          dsimp only
          by_cases hfr : (Flush b.now st1 msg.MMI).2 = true
          · rw [if_pos hfr, if_pos hfr]
          · rw [if_neg hfr, if_neg hfr]

/-- `ProcessSamples` threads its arguments into the resulting message and
does not touch the channel state. -/
theorem processSamples_shape (cfg : StreamConfig) (st : StreamState) (src srcname : String)
    (t : Int) (samples : List Int) (st1 : StreamState) (msg : Message)
    (h : ProcessSamples cfg st src srcname t samples = .ok (st1, msg)) :
    st1 = st ∧ msg.Source = src ∧ msg.SrcName = srcname ∧ msg.Time = t := by
  unfold ProcessSamples at h
  cases hE : Estimate cfg samples <;> rw [hE] at h
  · exact absurd h (by simp)
  · simp only [Except.ok.injEq, Prod.mk.injEq] at h
    obtain ⟨h1, h2⟩ := h
    subst h2
    exact ⟨h1.symm, rfl, rfl, rfl⟩

/-- A block whose source key was already remembered as missing is dropped
before anything happens: no log, no message, no state change, and — the
equation holding for every registry — no configuration lookup. -/
theorem processBlock_missing (replay : Bool) (d : Dispatch) (b : Block)
    (h : d.missing.contains b.srcname = true) :
    processBlock replay d b = (d, [], none) := by
  unfold processBlock
  rw [if_pos h]

/-- The remembered-missing set only grows. -/
theorem processBlock_missing_mono (replay : Bool) (d : Dispatch) (b : Block) (k : String)
    (h : d.missing.contains k = true) :
    (processBlock replay d b).1.missing.contains k = true := by
  rcases processBlock_cases replay d b with ⟨_, hE⟩ | ⟨_, _, hE⟩ | ⟨c, s, e, _, _, _, hE⟩ |
      ⟨c, s, sm, e, _, _, _, _, hE⟩ | ⟨c, s, sm, s1, m, _, _, _, _, hE⟩ <;>
    rw [hE] <;> simp_all [List.contains_cons]

/-- Updating one channel's state never makes another key resolvable. -/
theorem lookup_updateStream_none (l : List (String × StreamConfig × StreamState))
    (k j : String) (st : StreamState) (h : l.lookup k = none) :
    (updateStream l j st).lookup k = none := by
  induction l with
  | nil => rfl
  | cons p rest ih =>
    rcases p with ⟨a, q⟩
    cases hk : (k == a) with
    | true => simp [List.lookup, hk] at h
    | false =>
      simp only [List.lookup, hk] at h
      unfold updateStream
      simp only [List.map_cons]
      have hhead : (if a == j then (a, q.1, st) else (a, q)) = (a, if a == j then (q.1, st) else q) := by
        split <;> rfl
      rw [hhead]
      simp only [List.lookup, hk]
      exact ih h

/-- A key absent from the registry stays absent. -/
theorem processBlock_lookup_none (replay : Bool) (d : Dispatch) (b : Block) (k : String)
    (h : d.streams.lookup k = none) :
    (processBlock replay d b).1.streams.lookup k = none := by
  rcases processBlock_cases replay d b with ⟨_, hE⟩ | ⟨_, _, hE⟩ | ⟨c, s, e, _, _, _, hE⟩ |
      ⟨c, s, sm, e, _, _, _, _, hE⟩ | ⟨c, s, sm, s1, m, _, _, _, _, hE⟩ <;> rw [hE]
  · exact h
  · exact h
  · exact h
  · exact h
  · exact lookup_updateStream_none _ _ _ _ h

/-- Blocks for other source keys never log the unknown-stream line for `k`. -/
theorem processBlock_logs_count (replay : Bool) (d : Dispatch) (b : Block) (k : String)
    (h : b.srcname ≠ k) :
    ((processBlock replay d b).2.1).count (.unknownStream k) = 0 := by
  rcases processBlock_cases replay d b with ⟨_, hE⟩ | ⟨_, _, hE⟩ | ⟨c, s, e, _, _, _, hE⟩ |
      ⟨c, s, sm, e, _, _, _, _, hE⟩ | ⟨c, s, sm, s1, m, _, _, _, _, hE⟩ <;>
    rw [hE] <;> simp [List.count_cons, h]

/-- Once `k` is remembered as missing, the rest of the run never logs the
unknown-stream line for `k` again. -/
theorem runBlocks_count_zero (replay : Bool) (k : String) (bs : List Block) :
    ∀ d : Dispatch, d.missing.contains k = true →
    ((runBlocks replay d bs).2.1).count (.unknownStream k) = 0 := by
  induction bs with
  | nil => intro d _; simp [runBlocks]
  | cons b bs ih =>
    intro d h
    unfold runBlocks
    rw [List.count_append]
    have h1 : ((processBlock replay d b).2.1).count (.unknownStream k) = 0 := by
      by_cases hb : b.srcname = k
      · rw [processBlock_missing replay d b (hb ▸ h)]; rfl
      · exact processBlock_logs_count replay d b k hb
    rw [h1, ih _ (processBlock_missing_mono replay d b k h)]

/-- Every message produced by a single block carries the block's source key
and presupposes a successful registry lookup for it. -/
theorem processBlock_some_srcname (replay : Bool) (d : Dispatch) (b : Block) (m : Message)
    (h : (processBlock replay d b).2.2 = some m) :
    m.SrcName = b.srcname ∧ d.streams.lookup b.srcname ≠ none := by
  rcases processBlock_cases replay d b with ⟨_, hE⟩ | ⟨_, _, hE⟩ | ⟨c, s, e, _, _, _, hE⟩ |
      ⟨c, s, sm, e, _, _, _, _, hE⟩ | ⟨c, s, sm, s1, m0, _, hl, _, hps, hE⟩ <;> rw [hE] at h
  · simp at h
  · simp at h
  · simp at h
  · simp at h
  · refine ⟨?_, by rw [hl]; simp⟩
    obtain ⟨-, -, hsrc, -⟩ := processSamples_shape _ _ _ _ _ _ _ _ hps
    dsimp only at h
    split at h
    · cases replay <;> simp only [Option.some_inj] at h <;> rw [← h] <;> simp [hsrc]
    · exact absurd h (by simp)

/-- No block for an unconfigured key ever produces a message. -/
theorem runBlocks_no_unknown_message (replay : Bool) (k : String) (bs : List Block) :
    ∀ d : Dispatch, d.streams.lookup k = none →
    ∀ m ∈ (runBlocks replay d bs).2.2, m.SrcName ≠ k := by
  induction bs with
  | nil => intro d _ m hm; simp [runBlocks] at hm
  | cons b bs ih =>
    intro d h m hm
    unfold runBlocks at hm
    rw [List.mem_append] at hm
    cases hm with
    | inl hm =>
      cases hpb : (processBlock replay d b).2.2 with
      | none => rw [hpb] at hm; simp at hm
      | some m0 =>
        rw [hpb] at hm
        simp only [Option.toList_some, List.mem_singleton] at hm
        obtain ⟨hsrc, hlk⟩ := processBlock_some_srcname replay d b m0 hpb
        rw [hm, hsrc]
        intro hc
        rw [hc] at hlk
        exact hlk h
    | inr hm =>
      exact ih _ (processBlock_lookup_none replay d b k h) m hm

/-- C2: a block whose source key has no stream configuration is skipped
without producing a message, the unknown-stream log line for that key is
written at most once over the whole run (never again once the key is
remembered), and a block whose key is already remembered is dropped by an
equation that holds for every registry — no further log entry and no
configuration lookup. -/
theorem c2_unknown_key_skipped_once (replay : Bool) (k : String) (d : Dispatch)
    (bs : List Block) (hk : d.streams.lookup k = none) :
    ((runBlocks replay d bs).2.1).count (.unknownStream k) ≤ 1 ∧
      (∀ m ∈ (runBlocks replay d bs).2.2, m.SrcName ≠ k) ∧
      (d.missing.contains k = true →
        ((runBlocks replay d bs).2.1).count (.unknownStream k) = 0) ∧
      (∀ (d' : Dispatch) (b : Block), d'.missing.contains b.srcname = true →
        processBlock replay d' b = (d', [], none)) := by
  refine ⟨?_, runBlocks_no_unknown_message replay k bs d hk, runBlocks_count_zero replay k bs d, processBlock_missing replay⟩
  induction bs generalizing d with
  | nil => simp [runBlocks]
  | cons b bs ih =>
    unfold runBlocks
    rw [List.count_append]
    by_cases hm : d.missing.contains b.srcname = true
    · rw [processBlock_missing replay d b hm]
      simpa using ih d hk
    · by_cases hb : b.srcname = k
      · subst hb
        have hpb : processBlock replay d b =
            ({ d with missing := b.srcname :: d.missing }, [.unknownStream b.srcname], none) := by
          unfold processBlock
          simp [Bool.not_eq_true] at hm
          simp [hm, hk]
        rw [hpb]
        have hz := runBlocks_count_zero replay b.srcname bs
          { d with missing := b.srcname :: d.missing } (by simp [List.contains_cons])
        simp [hz, List.count_cons]
      · rw [processBlock_logs_count replay d b k hb]
        simpa using ih _ (processBlock_lookup_none replay d b k hk)

/-- C2 witness: two blocks for the unconfigured key `XX.YYY` against the
fixture registry; the unknown-stream line is logged at most once and no
message mentions the key. -/
theorem c2_unknown_key_skipped_once_witness :
    ((runBlocks false dW [{ bW with srcname := "XX.YYY" }, { bW with srcname := "XX.YYY" }]).2.1).count
        (.unknownStream "XX.YYY") ≤ 1 ∧
      (∀ m ∈ (runBlocks false dW [{ bW with srcname := "XX.YYY" }, { bW with srcname := "XX.YYY" }]).2.2,
        m.SrcName ≠ "XX.YYY") ∧
      (dW.missing.contains "XX.YYY" = true →
        ((runBlocks false dW [{ bW with srcname := "XX.YYY" }, { bW with srcname := "XX.YYY" }]).2.1).count
          (.unknownStream "XX.YYY") = 0) ∧
      (∀ (d' : Dispatch) (b : Block), d'.missing.contains b.srcname = true →
        processBlock false d' b = (d', [], none)) :=
  c2_unknown_key_skipped_once false "XX.YYY" dW
    [{ bW with srcname := "XX.YYY" }, { bW with srcname := "XX.YYY" }] (by decide)

/-! ## C3 -/

/-- C3: a block whose sample recovery (`DataSamples`) or sample processing
(`ProcessSamples`) fails is logged and skipped: the dispatcher state —
including the affected channel's accumulated state — is returned unchanged,
no message is produced, and the run continues with the next block on the
same state. -/
theorem c3_block_error_recovery (replay : Bool) (d : Dispatch) (b : Block) (bs : List Block)
    (cfg : StreamConfig) (st : StreamState)
    (hm : d.missing.contains b.srcname = false)
    (hl : d.streams.lookup b.srcname = some (cfg, st)) :
    (∀ e, b.samples = .error e → processBlock replay d b = (d, [.sampleProblem e], none)) ∧
    (∀ samples e, b.samples = .ok samples →
      ProcessSamples cfg st (replaceUnderscores (trimTrailingNuls (b.network ++ "." ++ b.station)))
        b.srcname b.starttime samples = .error e →
      processBlock replay d b = (d, [.processingProblem e], none)) ∧
    (∀ logs, processBlock replay d b = (d, logs, none) →
      runBlocks replay d (b :: bs) =
        ((runBlocks replay d bs).1, logs ++ (runBlocks replay d bs).2.1,
          (runBlocks replay d bs).2.2)) := by
  refine ⟨?_, ?_, ?_⟩
  · intro e he
    unfold processBlock
    rw [if_neg (by rw [hm]; simp)]
    simp [hl, he]
  · intro samples e hsmp hps
    unfold processBlock
    rw [if_neg (by rw [hm]; simp)]
    simp [hl, hsmp, hps]
  · intro logs hpb
    have hcons : runBlocks replay d (b :: bs) =
        ((runBlocks replay (processBlock replay d b).1 bs).1,
          (processBlock replay d b).2.1 ++ (runBlocks replay (processBlock replay d b).1 bs).2.1,
          (processBlock replay d b).2.2.toList ++
            (runBlocks replay (processBlock replay d b).1 bs).2.2) := rfl
    rw [hcons, hpb]
    simp

/-- C3 witness: a block whose `DataSamples` failed is logged and skipped
with the dispatcher state unchanged. -/
theorem c3_block_error_recovery_witness :
    ((∀ e, ({ bW with samples := .error "bad" } : Block).samples = .error e →
      processBlock false dW { bW with samples := .error "bad" } = (dW, [.sampleProblem e], none)) ∧
    (∀ samples e, ({ bW with samples := .error "bad" } : Block).samples = .ok samples →
      ProcessSamples cfgW stW
        (replaceUnderscores (trimTrailingNuls
          (({ bW with samples := .error "bad" } : Block).network ++ "." ++
            ({ bW with samples := .error "bad" } : Block).station)))
        ({ bW with samples := .error "bad" } : Block).srcname
        ({ bW with samples := .error "bad" } : Block).starttime samples = .error e →
      processBlock false dW { bW with samples := .error "bad" } = (dW, [.processingProblem e], none)) ∧
    (∀ logs, processBlock false dW { bW with samples := .error "bad" } = (dW, logs, none) →
      runBlocks false dW [{ bW with samples := .error "bad" }] =
        ((runBlocks false dW []).1, logs ++ (runBlocks false dW []).2.1,
          (runBlocks false dW []).2.2))) :=
  c3_block_error_recovery false dW { bW with samples := .error "bad" } [] cfgW stW
    (by decide) (by decide)

/-! ## C4 -/

/-- C4: loading the stream configuration fails with a fatal `ConfigError` —
aborting the whole run, whatever blocks were queued — on malformed input,
on a threshold table violating the non-decreasing invariant, or on a
duplicate source key. -/
theorem c4_config_fatal (verbose dryrun replay : Bool) (probation sensitivity t0 : Int)
    (raw : Option (List (String × StreamConfig))) (deliver : String → Bool)
    (blocks : List Block)
    (h : raw = none ∨ ∃ entries, raw = some entries ∧
        (dupKeys entries = true ∨
          entries.all (fun p => nonDecreasing p.2.thresholds) = false)) :
    LoadStreams raw = .error .configError ∧
    run verbose dryrun replay probation sensitivity t0 raw deliver blocks =
      .error .configError := by
  have hload : LoadStreams raw = .error .configError := by
    rcases h with h | ⟨entries, he, h2⟩
    · rw [h]; rfl
    · rw [he]
      unfold LoadStreams
      dsimp only
      rcases h2 with h2 | h2
      · rw [if_pos h2]
      · by_cases hd : dupKeys entries = true
        · rw [if_pos hd]
        · rw [if_neg hd, if_neg (by rw [h2]; simp)]
  refine ⟨hload, ?_⟩
  unfold run
  rw [hload]

/-- Fixture: a configuration whose threshold table decreases. -/
def cfgBad : StreamConfig :=
  { offset := 0, scale := 1, thresholds := [(100, 1), (0, 0)]
    probationOverride := none, sensitivityOverride := none }

/-- C4 witness: a configuration with a decreasing threshold table makes the
whole run abort with `ConfigError` before any block is processed. -/
theorem c4_config_fatal_witness :
    LoadStreams (some [("NZ.WEL.10.HNZ", cfgBad)]) = .error .configError ∧
    run false false false 0 0 0 (some [("NZ.WEL.10.HNZ", cfgBad)]) (fun _ => true) [bW] =
      .error .configError :=
  c4_config_fatal false false false 0 0 0 (some [("NZ.WEL.10.HNZ", cfgBad)])
    (fun _ => true) [bW]
    (Or.inr ⟨[("NZ.WEL.10.HNZ", cfgBad)], rfl, Or.inr (by decide)⟩)

/-! ## C5 -/

/-- Fixture: a channel configuration carrying one pair of overrides. -/
def cfgOvA : StreamConfig :=
  { offset := 0, scale := 1, thresholds := [(0, 0), (100, 1), (500, 2)]
    probationOverride := some 5, sensitivityOverride := some 0 }

/-- Fixture: a channel configuration carrying different overrides. -/
def cfgOvB : StreamConfig :=
  { offset := 0, scale := 1, thresholds := [(0, 0), (100, 1), (500, 2)]
    probationOverride := some 99, sensitivityOverride := some 1 }

/-- C5 counterexample: two configured channels whose `StreamConfig` records
carry different probation and sensitivity overrides are nevertheless
initialized to identical states within one run — the startup loop of
`main.go` (lines 84–90) passes the run-wide flag values (lines 44–48) to
every `Init`, so the overrides cannot make two channels differ. -/
theorem c5_counterexample :
    initStreams 0 600000000000 2 [("A", cfgOvA), ("B", cfgOvB)] =
      .ok [("A", cfgOvA, ⟨none, 600000000000, [], 0, 2⟩),
           ("B", cfgOvB, ⟨none, 600000000000, [], 0, 2⟩)] ∧
    cfgOvA.probationOverride ≠ cfgOvB.probationOverride ∧
    cfgOvA.sensitivityOverride ≠ cfgOvB.sensitivityOverride :=
  ⟨rfl, by decide, by decide⟩

/-- C5 amended: every successfully initialized channel receives the same
run-wide probation window and sensitivity level; the per-channel override
fields are never consulted, so two channels of one run cannot be
initialized with different probation deadlines or sensitivity levels. -/
theorem c5_uniform_init (t0 probation sensitivity : Int)
    (entries : List (String × StreamConfig))
    (streams : List (String × StreamConfig × StreamState))
    (h : initStreams t0 probation sensitivity entries = .ok streams) :
    ∀ x ∈ streams, x.2.2.deadline = t0 + probation ∧ x.2.2.sensitivity = sensitivity := by
  induction entries generalizing streams with
  | nil =>
    unfold initStreams at h
    simp only [Except.ok.injEq] at h
    subst h
    intro x hx
    simp at hx
  | cons p rest ih =>
    obtain ⟨k, cfg⟩ := p
    unfold initStreams at h
    cases hI : Init cfg k t0 probation sensitivity with
    | error e => rw [hI] at h; exact absurd h (by simp)
    | ok st =>
      rw [hI] at h
      cases hR : initStreams t0 probation sensitivity rest with
      | error e => rw [hR] at h; exact absurd h (by simp)
      | ok tl =>
        rw [hR] at h
        simp only [Except.ok.injEq] at h
        subst h
        intro x hx
        rcases List.mem_cons.mp hx with hx | hx
        · subst hx
          unfold Init at hI
          split at hI
          · exact absurd hI (by simp)
          · simp only [Except.ok.injEq] at hI
            rw [← hI]
            exact ⟨rfl, rfl⟩
        · exact ih tl hR x hx

/-- C5 amended witness: in a concrete two-channel run the first channel ends
up with the flag-derived deadline and sensitivity. -/
theorem c5_uniform_init_witness :
    ("A", cfgOvA, (⟨none, 600000000000, [], 0, 2⟩ : StreamState)).2.2.deadline =
        0 + 600000000000 ∧
      ("A", cfgOvA, (⟨none, 600000000000, [], 0, 2⟩ : StreamState)).2.2.sensitivity = 2 :=
  c5_uniform_init 0 600000000000 2 [("A", cfgOvA), ("B", cfgOvB)] _ rfl
    ("A", cfgOvA, ⟨none, 600000000000, [], 0, 2⟩) (List.mem_cons_self _ _)

/-! ## C6 -/

/-- C6: an emitted message carries the block start time as its event
timestamp when the replay override is off, and the wall-clock reading
truncated to whole seconds when it is on; the computed intensity level is
the same in both cases. -/
theorem c6_replay_timestamp (d : Dispatch) (b : Block)
    (cfg : StreamConfig) (st st1 : StreamState) (msg : Message) (samples : List Int)
    (hm : d.missing.contains b.srcname = false)
    (hl : d.streams.lookup b.srcname = some (cfg, st))
    (hs : b.samples = .ok samples)
    (hp : ProcessSamples cfg st
            (replaceUnderscores (trimTrailingNuls (b.network ++ "." ++ b.station)))
            b.srcname b.starttime samples = .ok (st1, msg))
    (hf : (Flush b.now st1 msg.MMI).2 = true) :
    (processBlock false d b).2.2 = some msg ∧
    (processBlock true d b).2.2 = some { msg with Time := truncSec b.now } ∧
    msg.Time = b.starttime ∧
    ((processBlock true d b).2.2).map Message.MMI =
      ((processBlock false d b).2.2).map Message.MMI := by
  have h1 : (processBlock false d b).2.2 = some msg := by
    unfold processBlock
    rw [if_neg (by rw [hm]; simp)]
    simp [hl, hs, hp, hf]
  have h2 : (processBlock true d b).2.2 = some { msg with Time := truncSec b.now } := by
    unfold processBlock
    rw [if_neg (by rw [hm]; simp)]
    simp [hl, hs, hp, hf]
  obtain ⟨-, -, -, ht⟩ := processSamples_shape _ _ _ _ _ _ _ _ hp
  exact ⟨h1, h2, ht, by rw [h1, h2]; rfl⟩

/-- C6 witness: the fixture block, once emitted, carries its start time
without replay and the truncated clock reading with replay; the level is 2
either way. -/
theorem c6_replay_timestamp_witness :
    (processBlock false dW bW).2.2 = some msgW ∧
    (processBlock true dW bW).2.2 = some { msgW with Time := truncSec bW.now } ∧
    msgW.Time = bW.starttime ∧
    ((processBlock true dW bW).2.2).map Message.MMI =
      ((processBlock false dW bW).2.2).map Message.MMI :=
  c6_replay_timestamp dW bW cfgW stW stW msgW [600] (by decide) (by decide) rfl
    (by simp [ProcessSamples, Estimate, lookupLevel, calibrate, cfgW, stW, bW, msgW,
              trimTrailingNuls, replaceUnderscores]
        norm_num)
    (by decide)

/-! ## C7 -/

/-- C7: the startup loop calls `Init` exactly once per configured channel —
a successful setup pairs each configured entry, in order, with the result
of its single `Init` call — and a failing `Init` aborts the setup and makes
the whole run fatal before any block is processed. -/
theorem c7_init_once_or_fatal (verbose dryrun replay : Bool)
    (probation sensitivity t0 : Int) (deliver : String → Bool) (blocks : List Block)
    (entries : List (String × StreamConfig)) :
    (∀ streams, initStreams t0 probation sensitivity entries = .ok streams →
      List.Forall₂ (fun e x => x.1 = e.1 ∧ x.2.1 = e.2 ∧
        Init e.2 e.1 t0 probation sensitivity = .ok x.2.2) entries streams) ∧
    ((∃ x ∈ entries, ∃ er, Init x.2 x.1 t0 probation sensitivity = .error er) →
      ∃ er, initStreams t0 probation sensitivity entries = .error er) ∧
    (∀ raw er, LoadStreams raw = .ok entries →
      initStreams t0 probation sensitivity entries = .error er →
      run verbose dryrun replay probation sensitivity t0 raw deliver blocks = .error er) := by
  refine ⟨?_, ?_, ?_⟩
  · induction entries with
    | nil =>
      intro streams h
      unfold initStreams at h
      simp only [Except.ok.injEq] at h
      subst h
      exact List.Forall₂.nil
    | cons p rest ih =>
      obtain ⟨k, cfg⟩ := p
      intro streams h
      unfold initStreams at h
      cases hI : Init cfg k t0 probation sensitivity with
      | error e => rw [hI] at h; exact absurd h (by simp)
      | ok st =>
        rw [hI] at h
        cases hR : initStreams t0 probation sensitivity rest with
        | error e => rw [hR] at h; exact absurd h (by simp)
        | ok tl =>
          rw [hR] at h
          simp only [Except.ok.injEq] at h
          subst h
          exact List.Forall₂.cons ⟨rfl, rfl, hI⟩ (ih tl hR)
  · induction entries with
    | nil => rintro ⟨x, hx, -⟩; simp at hx
    | cons p rest ih =>
      obtain ⟨k, cfg⟩ := p
      rintro ⟨x, hx, er, her⟩
      unfold initStreams
      cases hI : Init cfg k t0 probation sensitivity with
      | error e => exact ⟨e, rfl⟩
      | ok st =>
        rcases List.mem_cons.mp hx with hx | hx
        · subst hx; rw [her] at hI; exact absurd hI (by simp)
        · obtain ⟨er2, h2⟩ := ih ⟨x, hx, er, her⟩
          rw [h2]
          exact ⟨er2, rfl⟩
  · intro raw er hload hinit
    unfold run
    rw [hload]
    dsimp only
    rw [hinit]

/-- C7 witness: with an out-of-range sensitivity level (-1) the single
configured channel's `Init` fails and the whole run aborts with
`InvalidLevelError` although a block was queued. -/
theorem c7_init_once_or_fatal_witness :
    run false false false 0 (-1) 0 (some [("NZ.WEL.10.HNZ", cfgW)]) (fun _ => true) [bW] =
      .error .invalidLevel :=
  (c7_init_once_or_fatal false false false 0 (-1) 0 (fun _ => true) [bW]
      [("NZ.WEL.10.HNZ", cfgW)]).2.2
    (some [("NZ.WEL.10.HNZ", cfgW)]) .invalidLevel rfl rfl

/-! ## C8 -/

/-- C8: a positive flush decision records the new level in `lastEmitted`
before any delivery is attempted; the run's channel states, emitted
messages, logs and missing set are independent of the delivery outcome (no
rollback); and a later `Flush` of the unchanged level emits nothing
again — no duplicate emission after a delivery failure. -/
theorem c8_no_rollback_no_duplicate (verbose dryrun replay : Bool)
    (probation sensitivity t0 : Int) (raw : Option (List (String × StreamConfig)))
    (blocks : List Block) (now now2 : Int) (st : StreamState) (lvl : Int)
    (hf : (Flush now st lvl).2 = true) :
    (Flush now st lvl).1.lastEmitted = some lvl ∧
    (Flush now2 (Flush now st lvl).1 lvl).2 = false ∧
    (∀ deliver1 deliver2 : String → Bool,
      (run verbose dryrun replay probation sensitivity t0 raw deliver1 blocks).map
          (fun r => (r.streams, r.emitted, r.logs, r.missing)) =
        (run verbose dryrun replay probation sensitivity t0 raw deliver2 blocks).map
          (fun r => (r.streams, r.emitted, r.logs, r.missing))) := by
  refine ⟨flush_true_lastEmitted now st lvl hf,
    flush_unchanged_false now2 _ lvl (flush_true_lastEmitted now st lvl hf), ?_⟩
  intro deliver1 deliver2
  unfold run
  cases LoadStreams raw with
  | error e => rfl
  | ok cfgs =>
    dsimp only
    cases initStreams t0 probation sensitivity cfgs with
    | error e => rfl
    | ok streams0 => rfl

/-- C8 witness: the fixture state emits level 2 at time 7s; `lastEmitted`
is updated at once, a second evaluation of level 2 at 8s is suppressed, and
two runs differing only in the delivery function agree on states, messages
and logs. -/
theorem c8_no_rollback_no_duplicate_witness :
    (Flush 7000000000 stW 2).1.lastEmitted = some 2 ∧
    (Flush 8000000000 (Flush 7000000000 stW 2).1 2).2 = false ∧
    (∀ deliver1 deliver2 : String → Bool,
      (run false false false 0 0 0 (some [("NZ.WEL.10.HNZ", cfgW)]) deliver1 [bW]).map
          (fun r => (r.streams, r.emitted, r.logs, r.missing)) =
        (run false false false 0 0 0 (some [("NZ.WEL.10.HNZ", cfgW)]) deliver2 [bW]).map
          (fun r => (r.streams, r.emitted, r.logs, r.missing))) :=
  c8_no_rollback_no_duplicate false false false 0 0 0 (some [("NZ.WEL.10.HNZ", cfgW)])
    [bW] 7000000000 8000000000 stW 2 (by decide)

/-! ## C9 -/

/-- Replacing underscores by dots neither creates nor destroys NUL
characters, so it commutes with dropping leading NULs of a list. -/
theorem dropWhile_nul_map (l : List Char) :
    (l.map (fun c => if c = '_' then '.' else c)).dropWhile
        (fun c => decide (c = Char.ofNat 0)) =
      (l.dropWhile (fun c => decide (c = Char.ofNat 0))).map
        (fun c => if c = '_' then '.' else c) := by
  rw [List.dropWhile_map]
  have hp : ((fun c => decide (c = Char.ofNat 0)) ∘ fun c => if c = '_' then '.' else c) =
      (fun c : Char => decide (c = Char.ofNat 0)) := by
    funext c
    by_cases hc : c = '_'
    · subst hc; decide
    · simp [Function.comp, hc]
  rw [hp]

/-- Stripping trailing NULs and replacing underscores by dots commute. -/
theorem replace_trim_comm (s : String) :
    replaceUnderscores (trimTrailingNuls s) = trimTrailingNuls (replaceUnderscores s) := by
  unfold replaceUnderscores trimTrailingNuls
  apply congrArg String.mk
  show ((s.data.reverse.dropWhile (fun c => decide (c = Char.ofNat 0))).reverse).map
      (fun c => if c = '_' then '.' else c) =
    ((s.data.map (fun c => if c = '_' then '.' else c)).reverse.dropWhile
      (fun c => decide (c = Char.ofNat 0))).reverse
  calc ((s.data.reverse.dropWhile (fun c => decide (c = Char.ofNat 0))).reverse).map
        (fun c => if c = '_' then '.' else c)
      = ((s.data.reverse.dropWhile (fun c => decide (c = Char.ofNat 0))).map
          (fun c => if c = '_' then '.' else c)).reverse := List.map_reverse _ _
    _ = ((s.data.reverse.map (fun c => if c = '_' then '.' else c)).dropWhile
          (fun c => decide (c = Char.ofNat 0))).reverse := by rw [dropWhile_nul_map]
    _ = ((s.data.map (fun c => if c = '_' then '.' else c)).reverse.dropWhile
          (fun c => decide (c = Char.ofNat 0))).reverse := by rw [List.map_reverse]

/-- C9: every emitted message's normalized label is the network and station
codes joined by a dot with trailing NULs stripped and underscores replaced
by dots (in either order — the operations commute), while the raw source
key accompanying it is the decoder's `srcname` unchanged. -/
theorem c9_label_normalization (replay : Bool) (d : Dispatch) (b : Block) (m : Message)
    (h : (processBlock replay d b).2.2 = some m) :
    m.Source = trimTrailingNuls (replaceUnderscores (b.network ++ "." ++ b.station)) ∧
    m.Source = replaceUnderscores (trimTrailingNuls (b.network ++ "." ++ b.station)) ∧
    m.SrcName = b.srcname := by
  have hsrc : m.Source = replaceUnderscores (trimTrailingNuls (b.network ++ "." ++ b.station)) := by
    rcases processBlock_cases replay d b with ⟨_, hE⟩ | ⟨_, _, hE⟩ | ⟨c, s, e, _, _, _, hE⟩ |
        ⟨c, s, sm, e, _, _, _, _, hE⟩ | ⟨c, s, sm, s1, m0, _, hl, _, hps, hE⟩ <;> rw [hE] at h
    · simp at h
    · simp at h
    · simp at h
    · simp at h
    · obtain ⟨-, hS, -, -⟩ := processSamples_shape _ _ _ _ _ _ _ _ hps
      dsimp only at h
      split at h
      · cases replay <;> simp only [Option.some_inj] at h <;> rw [← h] <;> simp [hS]
      · exact absurd h (by simp)
  exact ⟨by rw [hsrc, replace_trim_comm], hsrc,
    (processBlock_some_srcname replay d b m h).1⟩

/-- C9 witness: the fixture block's station code ends in a NUL; the emitted
message's label is `NZ.WEL` under both normalization orders, and its raw
key is the decoder's srcname. -/
theorem c9_label_normalization_witness :
    msgW.Source = trimTrailingNuls (replaceUnderscores (bW.network ++ "." ++ bW.station)) ∧
    msgW.Source = replaceUnderscores (trimTrailingNuls (bW.network ++ "." ++ bW.station)) ∧
    msgW.SrcName = bW.srcname :=
  c9_label_normalization false dW bW msgW
    (by simp [processBlock, dW, bW, cfgW, stW, msgW, ProcessSamples, Estimate, lookupLevel,
              calibrate, trimTrailingNuls, replaceUnderscores, Flush, updateStream,
              flapTolerance, flapWindow, flapCooldown]
        norm_num)

/-! ## C10 -/

/-- The output goroutine under dry-run marshals and prints exactly as a
normal run with successful delivery does, but sends nothing. -/
theorem handleMessages_dryrun (verbose : Bool) (deliver : String → Bool) (ms : List Message) :
    handleMessages verbose true deliver ms =
      { handleMessages verbose false (fun _ => true) ms with sent := [] } := by
  induction ms with
  | nil => rfl
  | cons m ms ih =>
    unfold handleMessages
    rw [ih]
    simp

/-- C10: a dry run opens no queue connection and sends nothing, and is
otherwise — loaded configuration, per-block processing, flush decisions,
emitted messages, logs, marshalled JSON and verbose printing — identical to
a normal run with successful delivery, for every input. -/
theorem c10_dryrun_no_send (verbose replay : Bool) (probation sensitivity t0 : Int)
    (raw : Option (List (String × StreamConfig))) (deliver : String → Bool)
    (blocks : List Block) :
    run verbose true replay probation sensitivity t0 raw deliver blocks =
      (run verbose false replay probation sensitivity t0 raw (fun _ => true) blocks).map
        (fun r => { r with queueOpened := false, sent := [] }) := by
  unfold run
  cases LoadStreams raw with
  | error e => rfl
  | ok cfgs =>
    dsimp only
    cases initStreams t0 probation sensitivity cfgs with
    | error e => rfl
    | ok streams0 =>
      dsimp only [Except.map]
      rw [handleMessages_dryrun]
      rfl

end Msimpact
